import Mathlib

/-!
Verification of the sequential-id-counter-service core against its
specification.  The Go source is shallowly embedded: pure functions become
Lean functions, the external stores (Redis counters, PostgreSQL audit store,
RabbitMQ queue) become explicit state, and the outcomes of external calls
that can fail (publish, audit-store insert) are passed in as parameters.
Machine integers (Go int64 / int) are modelled as Int; the counters involved
stay far below 2^63 in every statement proved here, so no wrap-around
modelling is required.  Go identifier "prefix" is rendered "pfx" throughout
(it is a reserved word in Lean).
-/

/-- One argument to Go fmt.Sprintf, as used by this repository: a string, an
integer, or a slice of strings (UpdatePrefixConfig formats a []string). -/
inductive GoVal where
  | str (s : String)
  | int (n : Int)
  | strs (l : List String)
deriving DecidableEq

/-- Decimal character rendering of an Int, as Go strconv / fmt produce it. -/
def intChars (n : Int) : List Char := (toString n).data

/-- Go %d rendering with an optional zero flag and a minimum width.
With the 0 flag the number is left-padded with zeros (sign first);
without it, with spaces.  Width 0 gives the plain decimal form. -/
def goFormatInt (zero : Bool) (width : Nat) (n : Int) : List Char :=
  if zero then
    if n < 0 then
      '-' :: (List.replicate (width - 1 - (intChars (-n)).length) '0' ++ intChars (-n))
    else
      List.replicate (width - (intChars n).length) '0' ++ intChars n
  else
    List.replicate (width - (intChars n).length) ' ' ++ intChars n

/-- Apply a fmt verb ('d' or 's') to the head of the argument list, after the
flags and width have been parsed.  Faithful to Go fmt for the combinations
this repository can produce, including the mismatch forms
"%!d(MISSING)" (verb with no argument left) and "%!s(int=…)" (integer fed
to a %s verb), and the bracketed space-separated rendering of a []string. -/
def applyVerb (zero : Bool) (width : Nat) (verb : Char) (args : List GoVal) :
    List Char × List GoVal :=
  match verb, args with
  | 'd', GoVal.int n :: rest => (goFormatInt zero width n, rest)
  | 'd', GoVal.str s :: rest => (("%!d(string=" ++ s ++ ")").data, rest)
  | 'd', GoVal.strs _ :: rest => ( "%!d(slice)".data, rest)
  | 'd', [] => ( "%!d(MISSING)".data, [])
  | 's', GoVal.str s :: rest => (List.replicate (width - s.length) ' ' ++ s.data, rest)
  | 's', GoVal.int n :: rest => (("%!s(int=" ++ toString n ++ ")").data, rest)
  | 's', GoVal.strs l :: rest => (("[" ++ String.intercalate " " l ++ "]").data, rest)
  | 's', [] => ( "%!s(MISSING)".data, [])
  | c, rest => (['%', c], rest)

/-- The fmt.Sprintf scanning loop.  `spec` is true while inside a %-directive;
`zero` and `width` accumulate the parsed 0 flag and width digits. -/
def goSprintfGo : Bool → Bool → Nat → List Char → List GoVal → List Char
  | false, _, _, [], _ => []
  | true, _, _, [], _ => "%!(NOVERB)".data
  | false, _, _, c :: rest, args =>
      if c = '%' then goSprintfGo true false 0 rest args
      else c :: goSprintfGo false false 0 rest args
  | true, zero, width, c :: rest, args =>
      if c = '0' ∧ width = 0 then goSprintfGo true true width rest args
      else if c.isDigit then
        goSprintfGo true zero (width * 10 + (c.toNat - '0'.toNat)) rest args
      else if c = 'd' ∨ c = 's' then
        let out := applyVerb zero width c args
        out.1 ++ goSprintfGo false false 0 rest out.2
      else if c = '%' then '%' :: goSprintfGo false false 0 rest args
      else '%' :: c :: goSprintfGo false false 0 rest args

/-- Go fmt.Sprintf restricted to the directives this repository uses. -/
def goSprintf (tmpl : String) (args : List GoVal) : String :=
  ⟨goSprintfGo false false 0 tmpl.data args⟩

/-- Substring test on character lists (Go strings.Contains). -/
def listContains : List Char → List Char → Bool
  | [], sub => sub.isEmpty
  | c :: rest, sub => sub.isPrefixOf (c :: rest) || listContains rest sub

/-- Go strings.Contains. -/
def goContains (s sub : String) : Bool := listContains s.data sub.data

/-- seq_config row (internal/models PrefixConfig); id and the audit
timestamp fields play no role in any claim and are omitted. -/
structure PrefixConfig where
  pfx : String
  paddingLength : Int
  formatTemplate : String
  resetRule : String
deriving DecidableEq

/-- SequentialIDService.formatID (service layer).  The wall clock enters only
through time.Now().Year(), which is passed in as `year`. -/
def formatID (config : PrefixConfig) (counter : Int) (year : Int) : String :=
  let template := config.formatTemplate
  if goContains template "%s" && goContains template "%d" then
    if goContains template "%06d" then
      goSprintf template [GoVal.str config.pfx, GoVal.int counter]
    else if goContains template "%04d" then
      goSprintf template [GoVal.int year, GoVal.int counter]
    else
      goSprintf template [GoVal.str config.pfx, GoVal.int counter]
  else if goContains template "%d" then
    goSprintf template [GoVal.int counter]
  else
    goSprintf ("%s%0" ++ toString config.paddingLength ++ "d")
      [GoVal.str config.pfx, GoVal.int counter]

/-- internal/models SequentialID (the IssuedID handed back to the caller).
time.Time values are modelled as Int (Unix instants). -/
structure SequentialID where
  pfx : String
  counter : Int
  fullNumber : String
  generatedBy : String
  clientId : String
  messageId : String
  generatedAt : Int
deriving DecidableEq

/-- internal/models Event, the queue payload. -/
structure Event where
  messageId : String
  pfx : String
  counter : Int
  fullNumber : String
  generatedBy : String
  clientId : String
  correlationId : String
  generatedAt : Int
  publishedAt : Int
  retryCount : Int
  batchId : String
deriving DecidableEq

/-- A seq_log row (internal/models AuditLog); the database-assigned id and
timestamps irrelevant to the claims are omitted, the nullable text columns
are modelled as plain strings. -/
structure AuditLog where
  pfx : String
  counterValue : Int
  fullNumber : String
  generatedBy : String
  clientId : String
  correlationId : String
  messageId : String
  batchId : String
deriving DecidableEq

/-- seq_checkpoint row (internal/models Checkpoint). -/
structure Checkpoint where
  pfx : String
  lastCounterSynced : Int
  syncedBy : Option String
deriving DecidableEq

/-- seq_reset_log row (internal/models ResetLog). -/
structure ResetLog where
  pfx : String
  oldValue : Int
  newValue : Int
  reason : String
  adminUser : String
  resetId : String
deriving DecidableEq

/-- internal/models ResetRequest. -/
structure ResetRequest where
  setTo : Int
  reason : String
  adminUser : String
  force : Bool
deriving DecidableEq

/-- internal/models ResetResponse (message is the formatted Sprintf text). -/
structure ResetResponse where
  success : Bool
  message : String
  oldValue : Int
  newValue : Int
  resetId : String
deriving DecidableEq

/-- internal/models BatchRequest. -/
structure BatchRequest where
  pfx : String
  count : Int
  clientId : String
  generatedBy : String
  correlationId : String
deriving DecidableEq

/-- internal/models BatchResponse. -/
structure BatchResponse where
  ids : List SequentialID
  batchId : String
  count : Int
  generatedAt : Int
deriving DecidableEq

/-- The wall clock observed during one request: the Unix instant returned by
time.Now() and the calendar year time.Now().Year() extracts from it. -/
structure GoTime where
  unix : Int
  year : Int
deriving DecidableEq

/-- The distinct error returns of the service layer.  Each constructor is one
fmt.Errorf site (or the gRPC InvalidArgument guard). -/
inductive SvcError where
  | unknownPrefix
  | negativeValue
  | reasonRequired
  | adminUserRequired
  | unsafeReset
  | invalidCount
  | invalidArgument
deriving DecidableEq

/-- The combined state of the three stores the service mutates: Redis
counters (absent key indistinguishable from 0, as GetCounter returns 0 on
redis.Nil), the seq_config table, the seq_log audit table, the reset log and
checkpoint tables, and the queue of published (broker-acked) events.
`incrOps` records each Redis INCR / INCRBY call so that "exactly one
advance" is observable. -/
structure ServiceState where
  counters : String → Int
  configs : List PrefixConfig
  auditRows : List AuditLog
  resetLogs : List ResetLog
  checkpoints : String → Option Checkpoint
  queue : List Event
  incrOps : List (String × Int)

/-- PostgresRepository.GetPrefixConfig: the seq_config row for a prefix,
none when absent. -/
def GetPrefixConfig (st : ServiceState) (pfx : String) : Option PrefixConfig :=
  st.configs.find? (fun c => c.pfx == pfx)

/-- SequentialIDService.GetNext.  External inputs that the code obtains at
run time are parameters: the minted UUID, the clock, and whether the
RabbitMQ publish succeeds.  A failed publish is logged and ignored — the new
state and the issued id are returned either way (part_005 lines 82-90). -/
def GetNext (st : ServiceState) (pfx clientId generatedBy uuid : String)
    (now : GoTime) (publishOk : Bool) : ServiceState × Except SvcError SequentialID :=
  match GetPrefixConfig st pfx with
  | none => (st, Except.error SvcError.unknownPrefix)
  | some config =>
    let counter := st.counters pfx + 1
    let st1 : ServiceState :=
      { st with
        counters := fun p => if p = pfx then counter else st.counters p
        incrOps := st.incrOps ++ [(pfx, 1)] }
    let fullNumber := formatID config counter now.year
    let seqID : SequentialID :=
      ⟨pfx, counter, fullNumber, generatedBy, clientId, uuid, now.unix⟩
    let event : Event :=
      ⟨uuid, pfx, counter, fullNumber, generatedBy, clientId, "", now.unix,
        now.unix, 0, ""⟩
    let st2 := if publishOk then { st1 with queue := st1.queue ++ [event] } else st1
    (st2, Except.ok seqID)

/-- SequentialIDService.GetNextBatch.  `msgUuid i` is the UUID minted for the
i-th id of the batch, `publishOk i` whether its individual publish succeeds
(failures are logged and skipped, part_005 lines 158-165). -/
def GetNextBatch (st : ServiceState) (req : BatchRequest) (batchUuid : String)
    (msgUuid : Nat → String) (now : GoTime) (publishOk : Nat → Bool) :
    ServiceState × Except SvcError BatchResponse :=
  if req.count ≤ 0 ∨ req.count > 1000 then (st, Except.error SvcError.invalidCount)
  else
    match GetPrefixConfig st req.pfx with
    | none => (st, Except.error SvcError.unknownPrefix)
    | some config =>
      let endCounter := st.counters req.pfx + req.count
      let st1 : ServiceState :=
        { st with
          counters := fun p => if p = req.pfx then endCounter else st.counters p
          incrOps := st.incrOps ++ [(req.pfx, req.count)] }
      let startCounter := endCounter - req.count + 1
      let mkId : Nat → SequentialID := fun i =>
        ⟨req.pfx, startCounter + i, formatID config (startCounter + i) now.year,
          req.generatedBy, req.clientId, msgUuid i, now.unix⟩
      let mkEvent : Nat → Event := fun i =>
        ⟨msgUuid i, req.pfx, startCounter + i,
          formatID config (startCounter + i) now.year, req.generatedBy,
          req.clientId, req.correlationId, now.unix, now.unix, 0, batchUuid⟩
      let ids := (List.range req.count.toNat).map mkId
      let published := ((List.range req.count.toNat).filter publishOk).map mkEvent
      let st2 := { st1 with queue := st1.queue ++ published }
      (st2, Except.ok ⟨ids, batchUuid, req.count, now.unix⟩)

/-- SequentialIDService.ResetCounter.  Every early return happens before any
store is written, so those branches hand back the state unchanged.  On the
reset path the Redis WATCH/SET transaction returns the prior value, then a
ResetLog row is appended and the Checkpoint upserted (part_005 232-305). -/
def ResetCounter (st : ServiceState) (pfx : String) (req : ResetRequest)
    (uuid : String) : ServiceState × Except SvcError ResetResponse :=
  if req.setTo < 0 then (st, Except.error SvcError.negativeValue)
  else if req.reason = "" then (st, Except.error SvcError.reasonRequired)
  else if req.adminUser = "" then (st, Except.error SvcError.adminUserRequired)
  else
    let currentValue := st.counters pfx
    if req.force = false ∧ req.setTo ≤ currentValue then
      (st, Except.error SvcError.unsafeReset)
    else
      let oldValue := currentValue
      let st1 : ServiceState :=
        { st with
          counters := fun p => if p = pfx then req.setTo else st.counters p
          resetLogs := st.resetLogs ++
            [⟨pfx, oldValue, req.setTo, req.reason, req.adminUser, uuid⟩]
          checkpoints := fun p =>
            if p = pfx then some ⟨pfx, req.setTo, some req.adminUser⟩
            else st.checkpoints p }
      (st1,
        Except.ok
          ⟨true,
            goSprintf "Counter reset from %d to %d"
              [GoVal.int oldValue, GoVal.int req.setTo],
            oldValue, req.setTo, uuid⟩)

/-- PostgresRepository.GetMaxCounter: MAX(counter_value) over seq_log rows of
one prefix, 0 when there are none (SQL NULL mapped to 0 by the Go code). -/
def GetMaxCounter (rows : List AuditLog) (pfx : String) : Int :=
  match (rows.filter (fun r => r.pfx == pfx)).map (fun r => r.counterValue) with
  | [] => 0
  | v :: vs => vs.foldl max v

/-- One iteration of SyncCountersOnStartup's loop: raise the Redis counter to
the audit store's maximum when that is larger, then upsert the checkpoint. -/
def syncOne (st : ServiceState) (config : PrefixConfig) : ServiceState :=
  let maxCounter := GetMaxCounter st.auditRows config.pfx
  let current := st.counters config.pfx
  let st1 :=
    if maxCounter > current then
      { st with counters := fun p => if p = config.pfx then maxCounter else st.counters p }
    else st
  { st1 with
    checkpoints := fun p =>
      if p = config.pfx then some ⟨config.pfx, maxCounter, some "system"⟩
      else st1.checkpoints p }

/-- SequentialIDService.SyncCountersOnStartup (part_005 381-435). -/
def SyncCountersOnStartup (st : ServiceState) : ServiceState :=
  st.configs.foldl syncOne st

/-- Error outcomes of PostgresRepository.InsertAuditLog: the store being
unreachable (a transient failure from the consumer's point of view) or a
unique-constraint violation that the ON CONFLICT clause does not absorb. -/
inductive InsertErr where
  | storeUnavailable
  | uniqueViolation
deriving DecidableEq

/-- PostgresRepository.InsertAuditLog against the V001 schema.  The INSERT
carries ON CONFLICT (prefix, counter_value) DO NOTHING, so a (prefix,
counter_value) duplicate inserts no row and surfaces as sql.ErrNoRows, which
the Go code maps to success.  The schema's second unique key, message_id, is
NOT named in the ON CONFLICT clause: a row that clashes only on message_id
raises a unique violation that is returned as an error.  `dbUp` is whether
the store is reachable. -/
def InsertAuditLog (dbUp : Bool) (store : List AuditLog) (log : AuditLog) :
    Except InsertErr (List AuditLog) :=
  if dbUp = false then Except.error InsertErr.storeUnavailable
  else if store.any (fun r => r.pfx == log.pfx && r.counterValue == log.counterValue) then
    Except.ok store
  else if store.any (fun r => r.messageId == log.messageId) then
    Except.error InsertErr.uniqueViolation
  else Except.ok (store ++ [log])

/-- cmd/worker processEvent: the audit row built from a consumed event. -/
def auditLogOfEvent (e : Event) : AuditLog :=
  ⟨e.pfx, e.counter, e.fullNumber, e.generatedBy, e.clientId, e.correlationId,
    e.messageId, e.batchId⟩

/-- Broker-visible fate of one delivery in
RabbitMQRepository.ConsumeEvents. -/
inductive ConsumeOutcome where
  | acked
  | requeued
  | deadLettered
deriving DecidableEq

/-- One delivery of an event to the consumer loop (rabbitmq.go 147-208,
handler = worker processEvent = InsertAuditLog).  On handler failure the
loop increments retryCount on its local copy and nacks: dead-letter when the
incremented count reaches 3, requeue otherwise.  Note that Nack(requeue)
puts the ORIGINAL message body back on the queue — the incremented count is
not republished, so a redelivery parses the original retryCount again. -/
def ConsumeStep (dbUp : Bool) (store : List AuditLog) (e : Event) :
    List AuditLog × ConsumeOutcome :=
  match InsertAuditLog dbUp store (auditLogOfEvent e) with
  | Except.ok store' => (store', ConsumeOutcome.acked)
  | Except.error _ =>
    if e.retryCount + 1 ≥ 3 then (store, ConsumeOutcome.deadLettered)
    else (store, ConsumeOutcome.requeued)

/-- The fate of the (n+1)-st delivery of one event whose body never changes:
the broker redelivers exactly while the previous delivery was requeued, and
every redelivery carries the original body (see ConsumeStep).  With the
store stuck unavailable the audit store never changes, so each delivery is
ConsumeStep dbUp store e again. -/
def Redelivery (dbUp : Bool) (store : List AuditLog) (e : Event) : Nat → ConsumeOutcome
  | 0 => (ConsumeStep dbUp store e).2
  | n + 1 =>
    match Redelivery dbUp store e n with
    | ConsumeOutcome.requeued => (ConsumeStep dbUp store e).2
    | o => o

/-- pb.GetNextRequest.  The wire message of the design document carries
prefix, client_id and generated_by; the generated bindings used by the
server also expose correlation_id (part_003 uses req.CorrelationId).  The
union of the fields is modelled. -/
structure GetNextRequest where
  pfx : String
  clientId : String
  generatedBy : String
  correlationId : String
deriving DecidableEq

/-- pb.GetNextResponse as populated by Server.GetNext. -/
structure GetNextResponse where
  fullNumber : String
  pfx : String
  counter : Int
  generatedAt : Int
  messageId : String
deriving DecidableEq

/-- grpc Server.GetNext (part_003 31-54): validate the prefix, then call
SequentialIDService.GetNext with (req.Prefix, req.ClientId,
req.CorrelationId) — the correlation id is passed in the service's
generatedBy parameter position and the request's generated_by field is
never read. -/
def ServerGetNext (st : ServiceState) (req : GetNextRequest) (uuid : String)
    (now : GoTime) (publishOk : Bool) :
    ServiceState × Except SvcError GetNextResponse :=
  if req.pfx = "" then (st, Except.error SvcError.invalidArgument)
  else
    let r := GetNext st req.pfx req.clientId req.correlationId uuid now publishOk
    match r.2 with
    | Except.error e => (r.1, Except.error e)
    | Except.ok sid =>
      (r.1, Except.ok ⟨sid.fullNumber, sid.pfx, sid.counter, sid.generatedAt,
        sid.messageId⟩)

/-- The SET fragments PostgresRepository.UpdatePrefixConfig accumulates for
one iteration order of the updates map: "field = $i" for each updated field
(placeholders numbered from $1), then the always-appended
"updated_at = $(n+1)". -/
def updateSetParts (fields : List String) : List String :=
  (fields.enum.map (fun p => p.2 ++ " = $" ++ toString (p.1 + 1))) ++
    ["updated_at = $" ++ toString (fields.length + 1)]

/-- The SQL text PostgresRepository.UpdatePrefixConfig hands to ExecContext
(part_006 107-114): the outer Sprintf receives fmt.Sprintf("%s", setParts)
— the Go []string rendered with brackets and spaces — and the WHERE
placeholder index n+2. -/
def updatePrefixConfigQuery (fields : List String) : String :=
  goSprintf "\n\t\tUPDATE seq_config \n\t\tSET %s\n\t\tWHERE prefix = $%d\n\t"
    [GoVal.str (goSprintf "%s" [GoVal.strs (updateSetParts fields)]),
      GoVal.int ((fields.length : Int) + 2)]

/-- The query UpdatePrefixConfig would need to produce for the UPDATE to be
well-formed SQL.  Modelled from the spec: assignments joined by commas, no
brackets (the spec's §6 UpdateConfig operation presumes a working update). -/
def wellFormedUpdateQuery (fields : List String) : String :=
  "\n\t\tUPDATE seq_config \n\t\tSET " ++
    String.intercalate ", " (updateSetParts fields) ++
    "\n\t\tWHERE prefix = $" ++ toString (fields.length + 2) ++ "\n\t"

/-! ## Supporting lemmas -/

theorem digit_ne_pct {c : Char} (h : c.isDigit = true) : c ≠ '%' := by
  intro he
  subst he
  exact absurd h (by decide)

/-- A run of decimal digits followed by a final 'd' never contains the
two-character substring "%d". -/
theorem listContains_digits_d (ds : List Char) (hd : ∀ c ∈ ds, c.isDigit) :
    listContains (ds ++ ['d']) ['%', 'd'] = false := by
  induction ds with
  | nil => decide
  | cons c rest ih =>
    have hc : c ≠ '%' := digit_ne_pct (hd c (List.mem_cons_self c rest))
    have hrest : ∀ x ∈ rest, x.isDigit := fun x hx => hd x (List.mem_cons_of_mem c hx)
    have hbc : ('%' == c) = false := beq_eq_false_iff_ne.mpr fun h => hc h.symm
    simp [listContains, List.isPrefixOf, hbc, ih hrest]

/-! ## C1 -/

/-- C1: refuted — the spec's yearly two-integer template shape is mishandled.
For the migration's own INV config (format_template "INV%d-%04d"), counter 43
and year 2025, formatID does not produce "INV2025-0043": the template
contains no "%s", so the code takes the single-%d branch and calls Sprintf
with only the counter, yielding "INV43-%!d(MISSING)" (the second verb has no
argument).  This contradicts the branch's own comment, which names
"INV%d-%04d" as handled by the two-placeholder branch, and scenario S4. -/
theorem C1_yearly_template_mishandled :
    formatID ⟨"INV", 4, "INV%d-%04d", "yearly"⟩ 43 2025 = "INV43-%!d(MISSING)" ∧
      formatID ⟨"INV", 4, "INV%d-%04d", "yearly"⟩ 43 2025 ≠ "INV2025-0043" := by
  constructor
  · decide
  · decide

/-! ## C2 -/

/-- C2 counterexample: a config of template shape "%s%0Nd" (N = 8) whose
padding_length is 3 formats counter 43 as "SG043", not as the prefix
followed by an 8-digit zero-padded run "SG00000043" that the claim
promises. -/
theorem C2_counterexample :
    formatID ⟨"SG", 3, "%s%08d", "never"⟩ 43 2025 = "SG043" ∧
      formatID ⟨"SG", 3, "%s%08d", "never"⟩ 43 2025 ≠ "SG00000043" := by
  constructor
  · decide
  · decide

/-- C2 amended: for every config whose format_template has the
string-then-integer shape "%s%0<digits>d", formatID ignores the template
entirely — "%s%0Nd" contains the substring "%s" but not the substring "%d",
so both template branches are skipped — and renders the default format built
from the config's padding_length.  The counter is therefore zero-padded to
padding_length, not to the template's declared width N; the original claim
holds exactly when padding_length = N.  The result coincides with that of an
empty template, showing the declared width is never consulted. -/
theorem C2_padding_from_config_not_template (config : PrefixConfig)
    (ds : List Char) (counter year : Int)
    (hdig : ∀ c ∈ ds, c.isDigit)
    (ht : config.formatTemplate.data = '%' :: 's' :: '%' :: '0' :: (ds ++ ['d'])) :
    formatID config counter year =
      goSprintf ("%s%0" ++ toString config.paddingLength ++ "d")
        [GoVal.str config.pfx, GoVal.int counter] ∧
    formatID config counter year =
      formatID ⟨config.pfx, config.paddingLength, "", config.resetRule⟩ counter year := by
  have hnod : goContains config.formatTemplate "%d" = false := by
    unfold goContains
    rw [ht]
    have h4 := listContains_digits_d ds hdig
    simp [listContains, List.isPrefixOf, h4]
  have hmain : formatID config counter year =
      goSprintf ("%s%0" ++ toString config.paddingLength ++ "d")
        [GoVal.str config.pfx, GoVal.int counter] := by
    unfold formatID
    simp [hnod]
  have hrhs : formatID ⟨config.pfx, config.paddingLength, "", config.resetRule⟩
        counter year =
      goSprintf ("%s%0" ++ toString config.paddingLength ++ "d")
        [GoVal.str config.pfx, GoVal.int counter] := by
    unfold formatID
    dsimp only
    rw [show goContains "" "%d" = false from by decide]
    simp
  exact ⟨hmain, hmain.trans hrhs.symm⟩

/-! ## C3 -/

/-- C3 counterexample: a unique-key conflict on message_id alone is NOT
treated as success.  With a row (SG, 1, message_id "m-1") already stored,
delivering an event for (SG, 2) that reuses message_id "m-1" passes the
ON CONFLICT (prefix, counter_value) clause, hits the message_id unique
constraint, and the insert returns an error — the consumer requeues instead
of acknowledging. -/
theorem C3_counterexample :
    ConsumeStep true [⟨"SG", 1, "SG000001", "alice", "erp", "", "m-1", ""⟩]
        ⟨"m-1", "SG", 2, "SG000002", "alice", "erp", "", 0, 0, 0, ""⟩ =
      ([⟨"SG", 1, "SG000001", "alice", "erp", "", "m-1", ""⟩],
        ConsumeOutcome.requeued) ∧
    InsertAuditLog true [⟨"SG", 1, "SG000001", "alice", "erp", "", "m-1", ""⟩]
        (auditLogOfEvent ⟨"m-1", "SG", 2, "SG000002", "alice", "erp", "", 0, 0, 0, ""⟩) =
      Except.error InsertErr.uniqueViolation := by
  constructor
  · rfl
  · rfl

/-- C3 amended: the audit insertion treats a unique-key conflict on
(prefix, counter_value) — the key named in its ON CONFLICT clause — as
success; a conflict on message_id alone is an error.  The claim's
consequence still holds: two deliveries of the same AuditEvent carry the
same (prefix, counter), so the consumer acknowledges both and exactly one
AuditRow with that message_id exists afterwards. -/
theorem C3_idempotent_via_prefix_counter (store : List AuditLog) (e : Event)
    (hpc : ∀ r ∈ store, ¬(r.pfx = e.pfx ∧ r.counterValue = e.counter))
    (hm : ∀ r ∈ store, r.messageId ≠ e.messageId) :
    (∀ (store' : List AuditLog) (log : AuditLog),
      (∃ r ∈ store', r.pfx = log.pfx ∧ r.counterValue = log.counterValue) →
      InsertAuditLog true store' log = Except.ok store') ∧
    (ConsumeStep true store e).2 = ConsumeOutcome.acked ∧
    (ConsumeStep true (ConsumeStep true store e).1 e).2 = ConsumeOutcome.acked ∧
    ((ConsumeStep true (ConsumeStep true store e).1 e).1.filter
        (fun r => r.messageId == e.messageId)).length = 1 := by
  have conflictOk : ∀ (store' : List AuditLog) (log : AuditLog),
      (∃ r ∈ store', r.pfx = log.pfx ∧ r.counterValue = log.counterValue) →
      InsertAuditLog true store' log = Except.ok store' := by
    intro store' log ⟨r, hr, h1, h2⟩
    have hany : (store'.any fun r => r.pfx == log.pfx && r.counterValue == log.counterValue)
        = true := List.any_eq_true.mpr ⟨r, hr, by simp [h1, h2]⟩
    unfold InsertAuditLog
    simp [hany]
  have hnopc : (store.any fun r =>
      r.pfx == (auditLogOfEvent e).pfx &&
        r.counterValue == (auditLogOfEvent e).counterValue) = false := by
    rw [List.any_eq_false]
    intro r hr
    have := hpc r hr
    simp [auditLogOfEvent]
    intro h1
    exact fun h2 => this ⟨h1, h2⟩
  have hnom : (store.any fun r => r.messageId == (auditLogOfEvent e).messageId)
      = false := by
    rw [List.any_eq_false]
    intro r hr
    simp [auditLogOfEvent, hm r hr]
  have hins : InsertAuditLog true store (auditLogOfEvent e) =
      Except.ok (store ++ [auditLogOfEvent e]) := by
    unfold InsertAuditLog
    simp [hnopc, hnom]
  have hstep1 : ConsumeStep true store e =
      (store ++ [auditLogOfEvent e], ConsumeOutcome.acked) := by
    unfold ConsumeStep
    rw [hins]
  have hins2 : InsertAuditLog true (store ++ [auditLogOfEvent e]) (auditLogOfEvent e) =
      Except.ok (store ++ [auditLogOfEvent e]) := by
    refine conflictOk _ _ ⟨auditLogOfEvent e, ?_, rfl, rfl⟩
    simp
  have hstep2 : ConsumeStep true (store ++ [auditLogOfEvent e]) e =
      (store ++ [auditLogOfEvent e], ConsumeOutcome.acked) := by
    unfold ConsumeStep
    rw [hins2]
  refine ⟨conflictOk, by rw [hstep1], by rw [hstep1, hstep2], ?_⟩
  rw [hstep1, hstep2]
  have hfilter : store.filter (fun r => r.messageId == e.messageId) = [] := by
    rw [List.filter_eq_nil_iff]
    intro r hr
    simp [hm r hr]
  simp [List.filter_append, hfilter, auditLogOfEvent]

/-- C3 witness: starting from an empty audit store, delivering one concrete
AuditEvent twice acknowledges both deliveries and leaves exactly one row
with its message_id. -/
theorem C3_witness :
    (∀ (store' : List AuditLog) (log : AuditLog),
      (∃ r ∈ store', r.pfx = log.pfx ∧ r.counterValue = log.counterValue) →
      InsertAuditLog true store' log = Except.ok store') ∧
    (ConsumeStep true []
        ⟨"m-1", "SG", 1, "SG000001", "alice", "erp", "", 0, 0, 0, ""⟩).2 =
      ConsumeOutcome.acked ∧
    (ConsumeStep true
        (ConsumeStep true []
          ⟨"m-1", "SG", 1, "SG000001", "alice", "erp", "", 0, 0, 0, ""⟩).1
        ⟨"m-1", "SG", 1, "SG000001", "alice", "erp", "", 0, 0, 0, ""⟩).2 =
      ConsumeOutcome.acked ∧
    ((ConsumeStep true
        (ConsumeStep true []
          ⟨"m-1", "SG", 1, "SG000001", "alice", "erp", "", 0, 0, 0, ""⟩).1
        ⟨"m-1", "SG", 1, "SG000001", "alice", "erp", "", 0, 0, 0, ""⟩).1.filter
      (fun r => r.messageId ==
        (⟨"m-1", "SG", 1, "SG000001", "alice", "erp", "", 0, 0, 0, ""⟩ : Event).messageId)).length
      = 1 :=
  C3_idempotent_via_prefix_counter []
    ⟨"m-1", "SG", 1, "SG000001", "alice", "erp", "", 0, 0, 0, ""⟩
    (by simp) (by simp)

/-! ## C4 -/

/-- C4: a non-forced reset to a value not above the current counter is
rejected before any store is written: the state (counter, reset log,
checkpoints) comes back exactly as it went in together with an error, and
when the request passes the argument validations (set_to ≥ 0, non-empty
reason and admin user) that error is specifically UnsafeReset. -/
theorem C4_unsafe_reset_rejected (st : ServiceState) (pfx uuid : String)
    (req : ResetRequest)
    (hforce : req.force = false)
    (hle : req.setTo ≤ st.counters pfx) :
    (∃ e, ResetCounter st pfx req uuid = (st, Except.error e)) ∧
    (0 ≤ req.setTo → req.reason ≠ "" → req.adminUser ≠ "" →
      ResetCounter st pfx req uuid = (st, Except.error SvcError.unsafeReset)) := by
  constructor
  · by_cases h1 : req.setTo < 0
    · exact ⟨SvcError.negativeValue, by simp [ResetCounter, h1]⟩
    · by_cases h2 : req.reason = ""
      · exact ⟨SvcError.reasonRequired, by simp [ResetCounter, h1, h2]⟩
      · by_cases h3 : req.adminUser = ""
        · exact ⟨SvcError.adminUserRequired, by simp [ResetCounter, h1, h2, h3]⟩
        · exact ⟨SvcError.unsafeReset, by simp [ResetCounter, h1, h2, h3, hforce, hle]⟩
  · intro h0 hr ha
    have h1 : ¬req.setTo < 0 := by omega
    simp [ResetCounter, h1, hr, ha, hforce, hle]

/-- Concrete state for the C4 witness: counter for SG at 1000. -/
def C4state : ServiceState :=
  ⟨fun p => if p = "SG" then 1000 else 0, [], [], [], fun _ => none, [], []⟩

/-- C4 witness: scenario S5 — counter 1000, reset to 500 with force=false is
rejected with UnsafeReset and the state is untouched. -/
theorem C4_witness :
    (∃ e, ResetCounter C4state "SG" ⟨500, "cleanup", "op", false⟩ "r-1" =
      (C4state, Except.error e)) ∧
    (0 ≤ (⟨500, "cleanup", "op", false⟩ : ResetRequest).setTo →
      (⟨500, "cleanup", "op", false⟩ : ResetRequest).reason ≠ "" →
      (⟨500, "cleanup", "op", false⟩ : ResetRequest).adminUser ≠ "" →
      ResetCounter C4state "SG" ⟨500, "cleanup", "op", false⟩ "r-1" =
        (C4state, Except.error SvcError.unsafeReset)) :=
  C4_unsafe_reset_rejected C4state "SG" "r-1" ⟨500, "cleanup", "op", false⟩ rfl
    (by simp [C4state])

/-! ## C5 -/

/-- C5: when the counter advance succeeds but the audit publish fails,
GetNext neither rolls the counter back nor fails the request: the caller
still receives the IssuedID carrying the advanced counter and its formatted
full_number, the stored counter stays at the advanced value, and the lost
event simply never reaches the queue. -/
theorem C5_publish_failure_still_issues (st : ServiceState)
    (pfx clientId generatedBy uuid : String) (now : GoTime) (config : PrefixConfig)
    (hcfg : GetPrefixConfig st pfx = some config) :
    (GetNext st pfx clientId generatedBy uuid now false).2 =
      Except.ok ⟨pfx, st.counters pfx + 1,
        formatID config (st.counters pfx + 1) now.year, generatedBy, clientId,
        uuid, now.unix⟩ ∧
    (GetNext st pfx clientId generatedBy uuid now false).1.counters pfx =
      st.counters pfx + 1 ∧
    (GetNext st pfx clientId generatedBy uuid now false).1.queue = st.queue := by
  unfold GetNext
  rw [hcfg]
  simp

/-- Concrete state for the C5 witness: the seeded SG config, empty stores. -/
def C5state : ServiceState :=
  ⟨fun _ => 0, [⟨"SG", 6, "%s%06d", "never"⟩], [], [], fun _ => none, [], []⟩

/-- C5 witness: with the SG config and a failing publish, the first issue
still returns SG000001 with counter 1, the counter is stored as 1, and the
queue stays empty. -/
theorem C5_witness :
    (GetNext C5state "SG" "erp" "alice" "m-1" ⟨100, 2025⟩ false).2 =
      Except.ok ⟨"SG", 1, "SG000001", "alice", "erp", "m-1", 100⟩ ∧
    (GetNext C5state "SG" "erp" "alice" "m-1" ⟨100, 2025⟩ false).1.counters "SG" = 1 ∧
    (GetNext C5state "SG" "erp" "alice" "m-1" ⟨100, 2025⟩ false).1.queue = [] :=
  C5_publish_failure_still_issues C5state "SG" "erp" "alice" "m-1" ⟨100, 2025⟩
    ⟨"SG", 6, "%s%06d", "never"⟩ rfl

/-! ## C6 -/

theorem syncOne_auditRows (st : ServiceState) (c : PrefixConfig) :
    (syncOne st c).auditRows = st.auditRows := by
  unfold syncOne
  by_cases h : GetMaxCounter st.auditRows c.pfx > st.counters c.pfx
  · simp [h]
  · simp [h]

/-- Pointwise effect of one reconciliation iteration on the counters. -/
theorem syncOne_counters (st : ServiceState) (c : PrefixConfig) (p : String) :
    (syncOne st c).counters p =
      if p = c.pfx ∧ st.counters c.pfx < GetMaxCounter st.auditRows c.pfx
      then GetMaxCounter st.auditRows c.pfx else st.counters p := by
  unfold syncOne
  by_cases h : GetMaxCounter st.auditRows c.pfx > st.counters c.pfx
  · by_cases hp : p = c.pfx
    · simp [h, hp]
    · simp [h, hp]
  · have : ¬(p = c.pfx ∧ st.counters c.pfx < GetMaxCounter st.auditRows c.pfx) :=
      fun hc => h hc.2
    simp [h, this]

theorem syncOne_counters_le (st : ServiceState) (c : PrefixConfig) (p : String) :
    st.counters p ≤ (syncOne st c).counters p := by
  rw [syncOne_counters]
  by_cases hc : p = c.pfx ∧ st.counters c.pfx < GetMaxCounter st.auditRows c.pfx
  · rw [if_pos hc]
    rw [hc.1]
    exact le_of_lt hc.2
  · rw [if_neg hc]

/-- Across the whole reconciliation fold, each per-prefix counter is either
left alone or raised to the audit store's maximum for that prefix. -/
theorem syncFold_counters (cfgs : List PrefixConfig) (st : ServiceState) (p : String) :
    (cfgs.foldl syncOne st).counters p = st.counters p ∨
      ((cfgs.foldl syncOne st).counters p = GetMaxCounter st.auditRows p ∧
        st.counters p < GetMaxCounter st.auditRows p) := by
  induction cfgs generalizing st with
  | nil => exact Or.inl rfl
  | cons c rest ih =>
    rw [List.foldl_cons]
    have hA : (syncOne st c).auditRows = st.auditRows := syncOne_auditRows st c
    rcases ih (syncOne st c) with h | ⟨h1, h2⟩
    · rw [h, syncOne_counters]
      by_cases hc : p = c.pfx ∧ st.counters c.pfx < GetMaxCounter st.auditRows c.pfx
      · rw [if_pos hc]
        refine Or.inr ⟨?_, ?_⟩
        · rw [hc.1]
        · rw [hc.1]
          exact hc.2
      · rw [if_neg hc]
        exact Or.inl rfl
    · rw [hA] at h1 h2
      exact Or.inr ⟨h1, lt_of_le_of_lt (syncOne_counters_le st c p) h2⟩

/-- Concrete startup state for scenario S6: audit store holds max counter
777 for SG, the counter-store key is absent (reads as 0). -/
def C6state : ServiceState :=
  ⟨fun _ => 0, [⟨"SG", 6, "%s%06d", "never"⟩],
    [⟨"SG", 777, "SG000777", "", "", "", "m-777", ""⟩], [], fun _ => none, [], []⟩

/-- C6: the Reconciler never decreases a counter; every counter it touches
is raised exactly to the audit store's maximum for that prefix, and only
when that maximum exceeds the current value.  In scenario S6 (audit max 777
for SG, counter key absent), the first issue after startup returns counter
778 formatted as SG000778. -/
theorem C6_reconciler_repairs_upward :
    (∀ (st : ServiceState) (p : String),
      st.counters p ≤ (SyncCountersOnStartup st).counters p) ∧
    (∀ (st : ServiceState) (p : String),
      (SyncCountersOnStartup st).counters p = st.counters p ∨
        ((SyncCountersOnStartup st).counters p = GetMaxCounter st.auditRows p ∧
          st.counters p < GetMaxCounter st.auditRows p)) ∧
    (GetNext (SyncCountersOnStartup C6state) "SG" "erp" "alice" "m-778"
        ⟨100, 2025⟩ true).2 =
      Except.ok ⟨"SG", 778, "SG000778", "alice", "erp", "m-778", 100⟩ := by
  refine ⟨?_, ?_, ?_⟩
  · intro st p
    rcases syncFold_counters st.configs st p with h | ⟨h1, h2⟩
    · rw [SyncCountersOnStartup, h]
    · rw [SyncCountersOnStartup, h1]
      exact le_of_lt h2
  · intro st p
    exact syncFold_counters st.configs st p
  · rfl

/-! ## C7 -/

/-- C7: a batch request with count outside [1, 1000] fails with InvalidBatch
and leaves the entire state (in particular the counter) untouched;
otherwise the batch performs exactly one counter advance, by count, and the
returned ids carry exactly the contiguous counters end−count+1 … end, each
formatted through the prefix config, with the response (and every event
published for the batch) tagged by the one common batch_id. -/
theorem C7_batch_contiguous (st : ServiceState) (req : BatchRequest)
    (batchUuid : String) (msgUuid : Nat → String) (now : GoTime)
    (publishOk : Nat → Bool) :
    ((req.count < 1 ∨ req.count > 1000) →
      GetNextBatch st req batchUuid msgUuid now publishOk =
        (st, Except.error SvcError.invalidCount)) ∧
    (∀ config, 1 ≤ req.count → req.count ≤ 1000 →
      GetPrefixConfig st req.pfx = some config →
      (GetNextBatch st req batchUuid msgUuid now publishOk).1.counters req.pfx =
        st.counters req.pfx + req.count ∧
      (GetNextBatch st req batchUuid msgUuid now publishOk).1.incrOps =
        st.incrOps ++ [(req.pfx, req.count)] ∧
      (∃ resp,
        (GetNextBatch st req batchUuid msgUuid now publishOk).2 = Except.ok resp ∧
        resp.batchId = batchUuid ∧
        resp.ids.length = req.count.toNat ∧
        (∀ i, ∀ h : i < resp.ids.length,
          (resp.ids.get ⟨i, h⟩).counter = st.counters req.pfx + 1 + i ∧
          (resp.ids.get ⟨i, h⟩).fullNumber =
            formatID config (st.counters req.pfx + 1 + i) now.year) ∧
        (∀ e ∈ (GetNextBatch st req batchUuid msgUuid now publishOk).1.queue,
          e ∈ st.queue ∨ e.batchId = batchUuid))) := by
  constructor
  · intro hbad
    have hcond : req.count ≤ 0 ∨ req.count > 1000 := by omega
    unfold GetNextBatch
    rw [if_pos hcond]
  · intro config h1 h2 hcfg
    have hcond : ¬(req.count ≤ 0 ∨ req.count > 1000) := by omega
    unfold GetNextBatch
    rw [if_neg hcond, hcfg]
    simp only
    refine ⟨by simp, by simp, ?_⟩
    refine ⟨_, rfl, rfl, by simp, ?_, ?_⟩
    · intro i h
      have harith : st.counters req.pfx + req.count - req.count + 1 + (i : Int) =
          st.counters req.pfx + 1 + i := by ring
      constructor
      · simp [List.get_eq_getElem, List.getElem_map, List.getElem_range]
      · simp [List.get_eq_getElem, List.getElem_map, List.getElem_range, harith]
    · intro e he
      rcases List.mem_append.mp he with h | h
      · exact Or.inl h
      · rcases List.mem_map.mp h with ⟨i, _, hi⟩
        refine Or.inr ?_
        rw [← hi]

/-- Concrete state for the C7 witness: the seeded PO config, empty stores. -/
def C7state : ServiceState :=
  ⟨fun _ => 0, [⟨"PO", 8, "%s%08d", "monthly"⟩], [], [], fun _ => none, [], []⟩

/-- C7 witness: count 0 is rejected with the state untouched, and scenario
S3 — a batch of 5 for PO from counter 0 — advances the counter once by 5
and returns ids with counters 1…5 under one batch id. -/
theorem C7_witness :
    (GetNextBatch C7state ⟨"PO", 0, "erp", "alice", "r-0"⟩ "b-0"
        (fun i => "m-" ++ toString i) ⟨100, 2025⟩ (fun _ => true) =
      (C7state, Except.error SvcError.invalidCount)) ∧
    ((GetNextBatch C7state ⟨"PO", 5, "erp", "alice", "r-1"⟩ "b-1"
        (fun i => "m-" ++ toString i) ⟨100, 2025⟩ (fun _ => true)).1.counters "PO" =
      C7state.counters "PO" + 5 ∧
    (GetNextBatch C7state ⟨"PO", 5, "erp", "alice", "r-1"⟩ "b-1"
        (fun i => "m-" ++ toString i) ⟨100, 2025⟩ (fun _ => true)).1.incrOps =
      C7state.incrOps ++ [("PO", 5)] ∧
    (∃ resp,
      (GetNextBatch C7state ⟨"PO", 5, "erp", "alice", "r-1"⟩ "b-1"
          (fun i => "m-" ++ toString i) ⟨100, 2025⟩ (fun _ => true)).2 =
        Except.ok resp ∧
      resp.batchId = "b-1" ∧
      resp.ids.length = (5 : Int).toNat ∧
      (∀ i, ∀ h : i < resp.ids.length,
        (resp.ids.get ⟨i, h⟩).counter = C7state.counters "PO" + 1 + i ∧
        (resp.ids.get ⟨i, h⟩).fullNumber =
          formatID ⟨"PO", 8, "%s%08d", "monthly"⟩ (C7state.counters "PO" + 1 + i)
            2025) ∧
      (∀ e ∈ (GetNextBatch C7state ⟨"PO", 5, "erp", "alice", "r-1"⟩ "b-1"
          (fun i => "m-" ++ toString i) ⟨100, 2025⟩ (fun _ => true)).1.queue,
        e ∈ C7state.queue ∨ e.batchId = "b-1"))) :=
  ⟨(C7_batch_contiguous C7state ⟨"PO", 0, "erp", "alice", "r-0"⟩ "b-0"
      (fun i => "m-" ++ toString i) ⟨100, 2025⟩ (fun _ => true)).1 (by decide),
    (C7_batch_contiguous C7state ⟨"PO", 5, "erp", "alice", "r-1"⟩ "b-1"
      (fun i => "m-" ++ toString i) ⟨100, 2025⟩ (fun _ => true)).2
      ⟨"PO", 8, "%s%08d", "monthly"⟩ (by decide) (by decide) rfl⟩

/-! ## C8 -/

/-- C8: refuted by the requeue path.  The consumer increments retry_count
only on its in-memory copy of the event and then calls Nack(requeue=true),
which puts the ORIGINAL message body back on the queue.  Every redelivery
of an event published with retry_count 0 whose insertion keeps failing
(store unavailable) therefore parses retry_count 0 again, increments it to
1 < 3, and requeues once more: no matter how many redeliveries happen, the
outcome is always REQUEUED and the DEAD_LETTERED state claimed to be
eventually reached is never reached. -/
theorem C8_retry_count_never_persisted (store : List AuditLog) (e : Event)
    (h0 : e.retryCount = 0) :
    (∀ n, Redelivery false store e n = ConsumeOutcome.requeued) ∧
    (∀ n, Redelivery false store e n ≠ ConsumeOutcome.deadLettered) := by
  have hstep : ConsumeStep false store e = (store, ConsumeOutcome.requeued) := by
    unfold ConsumeStep InsertAuditLog
    simp [h0]
  have hall : ∀ n, Redelivery false store e n = ConsumeOutcome.requeued := by
    intro n
    induction n with
    | zero => simp [Redelivery, hstep]
    | succ n ih => simp [Redelivery, ih, hstep]
  exact ⟨hall, fun n => by rw [hall n]; simp⟩

/-- C8 witness: after five redeliveries of a concrete always-failing event
with retry_count 0, the consumer still requeues and has not dead-lettered. -/
theorem C8_witness :
    Redelivery false [] ⟨"m-1", "SG", 1, "SG000001", "alice", "erp", "", 0, 0, 0, ""⟩ 5 =
      ConsumeOutcome.requeued ∧
    Redelivery false [] ⟨"m-1", "SG", 1, "SG000001", "alice", "erp", "", 0, 0, 0, ""⟩ 5 ≠
      ConsumeOutcome.deadLettered :=
  ⟨(C8_retry_count_never_persisted []
      ⟨"m-1", "SG", 1, "SG000001", "alice", "erp", "", 0, 0, 0, ""⟩ rfl).1 5,
    (C8_retry_count_never_persisted []
      ⟨"m-1", "SG", 1, "SG000001", "alice", "erp", "", 0, 0, 0, ""⟩ rfl).2 5⟩

/-! ## C9 -/

/-- C9: the gRPC server hands the request's correlation_id to the service in
the generatedBy parameter position, so the IssuedID (and the published
audit event) record generated_by = correlation_id, while the request's own
generated_by field is ignored — the handler's result is unchanged under any
value of that field. -/
theorem C9_generated_by_from_correlation_id (st : ServiceState)
    (req : GetNextRequest) (uuid : String) (now : GoTime) (config : PrefixConfig)
    (hp : req.pfx ≠ "")
    (hcfg : GetPrefixConfig st req.pfx = some config) :
    (∀ publishOk sid,
      (GetNext st req.pfx req.clientId req.correlationId uuid now publishOk).2 =
        Except.ok sid → sid.generatedBy = req.correlationId) ∧
    (ServerGetNext st req uuid now true).1.queue =
      st.queue ++ [⟨uuid, req.pfx, st.counters req.pfx + 1,
        formatID config (st.counters req.pfx + 1) now.year, req.correlationId,
        req.clientId, "", now.unix, now.unix, 0, ""⟩] ∧
    (∀ g publishOk,
      ServerGetNext st ⟨req.pfx, req.clientId, g, req.correlationId⟩ uuid now
          publishOk =
        ServerGetNext st req uuid now publishOk) := by
  refine ⟨?_, ?_, ?_⟩
  · intro publishOk sid hok
    unfold GetNext at hok
    rw [hcfg] at hok
    simp at hok
    rw [← hok]
  · unfold ServerGetNext
    rw [if_neg hp]
    unfold GetNext
    rw [hcfg]
    simp
  · intro g publishOk
    rfl

/-- Concrete state for the C9 witness. -/
def C9state : ServiceState :=
  ⟨fun _ => 0, [⟨"SG", 6, "%s%06d", "never"⟩], [], [], fun _ => none, [], []⟩

/-- C9 witness: a concrete request with correlation_id "corr-7" and a
different generated_by "req-gb" issues an id recording generated_by
"corr-7", publishes an event with generated_by "corr-7", and changing the
request's generated_by leaves the handler's output untouched. -/
theorem C9_witness :
    (∀ publishOk sid,
      (GetNext C9state "SG" "erp" "corr-7" "m-1" ⟨100, 2025⟩ publishOk).2 =
        Except.ok sid → sid.generatedBy = "corr-7") ∧
    (ServerGetNext C9state ⟨"SG", "erp", "req-gb", "corr-7"⟩ "m-1" ⟨100, 2025⟩
        true).1.queue =
      C9state.queue ++
        [⟨"m-1", "SG", 1, "SG000001", "corr-7", "erp", "", 100, 100, 0, ""⟩] ∧
    (∀ g publishOk,
      ServerGetNext C9state ⟨"SG", "erp", g, "corr-7"⟩ "m-1" ⟨100, 2025⟩ publishOk =
        ServerGetNext C9state ⟨"SG", "erp", "req-gb", "corr-7"⟩ "m-1" ⟨100, 2025⟩
          publishOk) :=
  C9_generated_by_from_correlation_id C9state ⟨"SG", "erp", "req-gb", "corr-7"⟩
    "m-1" ⟨100, 2025⟩ ⟨"SG", 6, "%s%06d", "never"⟩ (by decide) rfl

/-! ## C10 -/

/-- C10: for every non-empty update set, the UPDATE statement text embeds
the Go []string of SET parts through fmt.Sprintf("%s", setParts), yielding a
bracketed, space-separated clause — e.g. "[padding_length = $1
updated_at = $2]" — rather than comma-separated assignments, so the
generated text differs from the well-formed UPDATE and is not valid SQL
(a well-formed UPDATE of these parts contains no bracket after SET). -/
theorem C10_update_query_bracketed :
    (∀ fields : List String,
      updatePrefixConfigQuery fields =
        "\n\t\tUPDATE seq_config \n\t\tSET [" ++
          String.intercalate " " (updateSetParts fields) ++
          "]\n\t\tWHERE prefix = $" ++ toString ((fields.length : Int) + 2) ++
          "\n\t") ∧
    updatePrefixConfigQuery ["padding_length"] =
      "\n\t\tUPDATE seq_config \n\t\tSET [padding_length = $1 updated_at = $2]\n\t\tWHERE prefix = $3\n\t" ∧
    updatePrefixConfigQuery ["padding_length", "format_template"] ≠
      wellFormedUpdateQuery ["padding_length", "format_template"] := by
  have hext : ∀ s t : String, s.data = t.data → s = t := fun s t h => by
    cases s
    cases t
    simp_all
  refine ⟨?_, by decide, by decide⟩
  intro fields
  apply hext
  unfold updatePrefixConfigQuery goSprintf
  simp [goSprintfGo, applyVerb, goFormatInt, intChars, String.data_append,
    Char.isDigit]

/-- C2 witness: the seeded PO config (template "%s%08d", padding_length 8)
instantiates the amended claim; there the default format agrees with the
template width and counter 43 renders as "PO00000043". -/
theorem C2_witness :
    formatID ⟨"PO", 8, "%s%08d", "monthly"⟩ 43 2025 =
        goSprintf ("%s%0" ++ toString (8 : Int) ++ "d")
          [GoVal.str "PO", GoVal.int 43] ∧
      formatID ⟨"PO", 8, "%s%08d", "monthly"⟩ 43 2025 =
        formatID ⟨"PO", 8, "", "monthly"⟩ 43 2025 :=
  C2_padding_from_config_not_template ⟨"PO", 8, "%s%08d", "monthly"⟩ ['8'] 43 2025
    (by decide) (by decide)
